import Mathlib

/-!
Verification of the rule-matching and payout-calculation engine of
`src/backend/main.py` (insurance report processing).  The Python functions
`classify_payin`, `determine_lob` and `apply_formula`, together with the
static table `FORMULA_DATA`, are shallowly embedded below.  Python strings
become `String` (matching on `List Char`), Python floats become `ℚ`
(the arithmetic performed by the engine is exact decimal arithmetic on the
values that occur; binary-float rounding is irrelevant at the precision the
program prints), and the one per-record failure point — formatting a
non-numeric `Payin_Value` — is modelled with an `Option ℚ` field.
-/

/-! ## String helpers modelling Python primitives -/

/-- Python whitespace characters recognised by `str.strip` / regex `\s`
(ASCII subset; the inputs handled by the program are ASCII apart from the
en/em dashes, which are not whitespace). -/
def isWSChar (c : Char) : Bool :=
  c == ' ' || c == '\t' || c == '\n' || c == '\r' || c == '\x0b' || c == '\x0c'

/-- `headMatches n h` is true when `n` is an initial segment of `h`. -/
def headMatches : List Char → List Char → Bool
  | [], _ => true
  | _ :: _, [] => false
  | a :: as, b :: bs => a == b && headMatches as bs

/-- Python's `needle in hay` substring test. -/
def subStr (n : List Char) : List Char → Bool
  | [] => n.isEmpty
  | c :: t => headMatches n (c :: t) || subStr n t

/-- Python's `str.upper()` (ASCII letters; other characters unchanged). -/
def upperStr (s : String) : String := String.mk (s.data.map Char.toUpper)

/-- Python's `str.replace(c, "")` for a one-character pattern. -/
def removeChar (c : Char) (s : String) : String :=
  String.mk (s.data.filter (fun x => x != c))

/-- Python's `str.strip()`: drop whitespace from both ends. -/
def stripStr (s : String) : String :=
  String.mk (((s.data.dropWhile isWSChar).reverse.dropWhile isWSChar).reverse)

/-! ## The rule table `FORMULA_DATA` -/

/-- One row of `FORMULA_DATA`: keys `LOB`, `SEGMENT`, `PO`, `REMARKS`. -/
structure Rule where
  lob : String
  segment : String
  po : String
  remarks : String
deriving DecidableEq

/-- The static rule table `FORMULA_DATA` from `src/backend/main.py`,
in source order. -/
def FORMULA_DATA : List Rule := [
  ⟨"TW", "1+5", "90% of Payin", "NIL"⟩,
  ⟨"TW", "TW SAOD + COMP", "90% of Payin", "NIL"⟩,
  ⟨"TW", "TW TP", "-2%", "Payin Below 20%"⟩,
  ⟨"TW", "TW TP", "-3%", "Payin 21% to 30%"⟩,
  ⟨"TW", "TW TP", "-4%", "Payin 31% to 50%"⟩,
  ⟨"TW", "TW TP", "-5%", "Payin Above 50%"⟩,
  ⟨"PVT CAR", "PVT CAR COMP + SAOD", "90% of Payin", "NIL"⟩,
  ⟨"PVT CAR", "PVT CAR TP", "21", "NIL"⟩,
  ⟨"PVT CAR", "PVT CAR TP", "21", "Zuno - 21"⟩,
  ⟨"CV", "All GVW & PCV 3W, GCV 3W", "-2%", "Payin Below 20%"⟩,
  ⟨"CV", "All GVW & PCV 3W, GCV 3W", "-3%", "Payin 21% to 30%"⟩,
  ⟨"CV", "All GVW & PCV 3W, GCV 3W", "-4%", "Payin 31% to 50%"⟩,
  ⟨"CV", "All GVW & PCV 3W, GCV 3W", "-5%", "Payin Above 50%"⟩,
  ⟨"BUS", "SCHOOL BUS", "88% of Payin", "NIL"⟩,
  ⟨"BUS", "STAFF BUS", "88% of Payin", "NIL"⟩,
  ⟨"TAXI", "TAXI", "-2%", "Payin Below 20%"⟩,
  ⟨"TAXI", "TAXI", "-3%", "Payin 21% to 30%"⟩,
  ⟨"TAXI", "TAXI", "-4%", "Payin 31% to 50%"⟩,
  ⟨"TAXI", "TAXI", "-5%", "Payin Above 50%"⟩,
  ⟨"MISD", "Misd, Tractor", "88% of Payin", "NIL"⟩]

/-- The row at index 8: `{"LOB": "PVT CAR", "SEGMENT": "PVT CAR TP",
"PO": "21", "REMARKS": "Zuno - 21"}`. -/
def zunoTableRow : Rule := ⟨"PVT CAR", "PVT CAR TP", "21", "Zuno - 21"⟩

/-! ## `classify_payin` -/

/-- A raw pay-in value: Python `int`/`float` (`num`) or `str` (`str`). -/
inductive PayinInput where
  | num (v : ℚ)
  | str (s : String)

/-- Decimal value of a digit list (`foldl`-style, as `float` would read it). -/
def natOfDigits (l : List Char) : ℕ :=
  l.foldl (fun a c => a * 10 + (c.toNat - 48)) 0

/-- All characters are ASCII digits. -/
def allDigits (l : List Char) : Bool := l.all (fun c => c.isDigit)

/-- Python `float(str)` on a character list (after an optional leading `+`
has been removed): an ordinary decimal literal `ddd`, `ddd.ddd`, `ddd.` or
`.ddd`.  Exotic forms accepted by CPython (exponents, `inf`/`nan`,
underscores) are not modelled; they cannot be produced by the pay-in
strings the pipeline handles. -/
def parseDecL (l : List Char) : Option ℚ :=
  match l.splitOn '.' with
  | [ip] =>
    if !ip.isEmpty && allDigits ip then some ((natOfDigits ip : ℚ)) else none
  | [ip, fp] =>
    if (!ip.isEmpty || !fp.isEmpty) && allDigits ip && allDigits fp then
      some ((natOfDigits ip : ℚ) + (natOfDigits fp : ℚ) / (10 : ℚ) ^ fp.length)
    else none
  | _ => none

/-- Python `float(str)`: strip an optional leading `+` sign, then parse a
decimal literal.  (A leading `-` never reaches this point: `classify_payin`
removes all minus signs first.) -/
def parseDec (s : String) : Option ℚ :=
  parseDecL (match s.data with | '+' :: t => t | l => l)

/-- The string clean-up in `classify_payin`:
`str(payin_value).replace("%", "").replace(" ", "").replace("-", "").strip()`. -/
def stripPayin (s : String) : String :=
  stripStr (removeChar '-' (removeChar ' ' (removeChar '%' s)))

/-- The shared bucket chain of `classify_payin`: thresholds inclusive at the
upper bound. -/
def classifyVal (v : ℚ) : ℚ × String :=
  if v ≤ 20 then (v, "Payin Below 20%")
  else if v ≤ 30 then (v, "Payin 21% to 30%")
  else if v ≤ 50 then (v, "Payin 31% to 50%")
  else (v, "Payin Above 50%")

/-- `classify_payin` from `src/backend/main.py` (lines 218–232).  A numeric
value is used as-is; a string is cleaned and parsed; the `except` branch
(parse failure) yields `(0.0, "Payin Below 20%")`. -/
def classify_payin (x : PayinInput) : ℚ × String :=
  match x with
  | .num v => classifyVal v
  | .str s =>
    match parseDec (stripPayin s) with
    | some v => classifyVal v
    | none => ((0 : ℚ), "Payin Below 20%")

/-! ## `determine_lob` -/

/-- `determine_lob` from `src/backend/main.py` (lines 234–248). -/
def determine_lob (segment : String) : String :=
  let s := upperStr segment
  if subStr "BUS".data s.data then "BUS"
  else if ["TW", "2W", "MC", "SC", "1+5"].any (fun k => subStr k.data s.data) then "TW"
  else if ["PVT CAR", "CAR", "PCI"].any (fun k => subStr k.data s.data) then "PVT CAR"
  else if ["CV", "GVW", "PCV", "GCV"].any (fun k => subStr k.data s.data) then "CV"
  else if subStr "TAXI".data s.data then "TAXI"
  else if ["MISD", "TRACTOR"].any (fun k => subStr k.data s.data) then "MISD"
  else "UNKNOWN"

/-! ## The Zuno override regex

`re.search(r"Zuno\s*[-–—]\s*21", remark, re.IGNORECASE)`. -/

/-- A dash, en-dash or em-dash (the regex class `[-–—]`). -/
def isDash (c : Char) : Bool := c == '-' || c == '–' || c == '—'

/-- Drop leading whitespace (`\s*`). -/
def skipWS : List Char → List Char
  | [] => []
  | c :: t => if isWSChar c then skipWS t else c :: t

/-- The regex `Zuno\s*[-–—]\s*21` anchored at the start of the list,
case-insensitively. -/
def zunoAt : List Char → Bool
  | z :: u :: n :: o :: rest =>
    if z.toUpper == 'Z' && u.toUpper == 'U' && n.toUpper == 'N' && o.toUpper == 'O' then
      match skipWS rest with
      | d :: r2 =>
        if isDash d then
          match skipWS r2 with
          | '2' :: '1' :: _ => true
          | _ => false
        else false
      | [] => false
    else false
  | _ => false

/-- `re.search`: the pattern matches at some position of the list. -/
def zunoSearch : List Char → Bool
  | [] => false
  | c :: t => zunoAt (c :: t) || zunoSearch t

/-! ## `apply_formula`: rule selection and payout computation -/

/-- The candidate test of both matching loops: the rule's `LOB` equals the
record's resolved line of business and the uppercased rule `SEGMENT` occurs
in the uppercased record segment. -/
def candPred (lob segUp : String) (rule : Rule) : Bool :=
  rule.lob == lob && subStr (upperStr rule.segment).data segUp.data

/-- First matching loop of `apply_formula` (lines 297–308): first rule in
table order passing the candidate test whose stripped `REMARKS` is not
`"NIL"` and such that the record's pay-in category occurs in the remarks
bucket, or the remarks bucket occurs in the record's remark. -/
def pass1 (lob segUp payinCat remark : String) : Option Rule :=
  FORMULA_DATA.find? (fun rule =>
    candPred lob segUp rule &&
      (stripStr rule.remarks != "NIL" &&
        (subStr payinCat.data (stripStr rule.remarks).data ||
          subStr (stripStr rule.remarks).data remark.data)))

/-- Second matching loop of `apply_formula` (lines 310–321): first candidate
whose stripped `REMARKS` is exactly `"NIL"`. -/
def pass2 (lob segUp : String) : Option Rule :=
  FORMULA_DATA.find? (fun rule =>
    candPred lob segUp rule && (stripStr rule.remarks == "NIL"))

/-- The matched rule: the first pass, then the `NIL` fallback pass. -/
def selectRule (lob segUp payinCat remark : String) : Option Rule :=
  match pass1 lob segUp payinCat remark with
  | some m => some m
  | none => pass2 lob segUp

/-- Python's binary `max`. -/
def pymax (a b : ℚ) : ℚ := if a ≤ b then b else a

/-- Payout from the matched rule's `PO` string (lines 323–343), including
the final `payout = max(0.0, payout)` clamp. -/
def computePO (po : String) (payinVal : ℚ) : ℚ :=
  let payout : ℚ :=
    if po == "21" then 21
    else if subStr "90% of Payin".data po.data then payinVal * (9 / 10)
    else if subStr "88% of Payin".data po.data then payinVal * (88 / 100)
    else if subStr "Less 2%".data po.data || subStr "-2%".data po.data then payinVal - 2
    else if subStr "-3%".data po.data then payinVal - 3
    else if subStr "-4%".data po.data then payinVal - 4
    else if subStr "-5%".data po.data then payinVal - 5
    else payinVal
  pymax 0 payout

/-- A record as `apply_formula` sees it on the non-error path: the extracted
fields plus `Payin_Value` / `Payin_Category` set by `classify_payin`. -/
structure ClassifiedRecord where
  segment : String
  policy_type : String
  location : String
  payinValue : ℚ
  payinCategory : String
  remark : String
deriving DecidableEq

/-- One output row of `apply_formula` (the dict appended to `result`). -/
structure OutRow where
  segment : String
  policyType : String
  location : String
  payin : String
  remark : String
  calculatedPayout : String
  formulaUsed : String
  ruleExplanation : String
deriving DecidableEq

/-- Two-decimal rendering of a value, as the f-string `f"{v:.2f}"` prints
it.  Ties at the third decimal are rounded half-up here; CPython rounds the
underlying binary double half-to-even, but no value the engine prints is a
tie, so the two agree on this program's outputs. -/
def fmt2Int (c : ℤ) : String :=
  (if c < 0 then "-" else "") ++ toString (c.natAbs / 100) ++ "." ++
    (if c.natAbs % 100 < 10 then "0" else "") ++ toString (c.natAbs % 100)

def fmt2 (q : ℚ) : String := fmt2Int ⌊q * 100 + 1 / 2⌋

/-- The rule selected for a record by the matching loops. -/
def selectRuleOf (rec : ClassifiedRecord) : Option Rule :=
  selectRule (determine_lob rec.segment) (upperStr rec.segment)
    rec.payinCategory rec.remark

/-- The rule a record is ultimately processed with: `none` when the Zuno
override short-circuits (no rule lookup happens) or when no rule matches. -/
def matchedRuleOf (rec : ClassifiedRecord) : Option Rule :=
  if zunoSearch rec.remark.data then none else selectRuleOf rec

/-- The numeric value of the `payout` variable of `apply_formula` as the
record's row is assembled. -/
def payoutOf (rec : ClassifiedRecord) : ℚ :=
  if zunoSearch rec.remark.data then 21
  else
    match selectRuleOf rec with
    | some m => computePO m.po rec.payinValue
    | none => rec.payinValue

/-- The body of the `apply_formula` loop on the non-error path
(lines 260–361): Zuno override first, then rule matching, then row
assembly. -/
def applyRecord (rec : ClassifiedRecord) : OutRow :=
  if zunoSearch rec.remark.data then
    { segment := rec.segment, policyType := rec.policy_type,
      location := rec.location, payin := fmt2 rec.payinValue ++ "%",
      remark := rec.remark, calculatedPayout := fmt2 21 ++ "%",
      formulaUsed := "Zuno - 21 (from remark)",
      ruleExplanation := "Remark contains \x27Zuno - 21\x27 → Fixed payout of 21%" }
  else
    match selectRuleOf rec with
    | some m =>
      { segment := rec.segment, policyType := rec.policy_type,
        location := rec.location, payin := fmt2 rec.payinValue ++ "%",
        remark := rec.remark,
        calculatedPayout := fmt2 (computePO m.po rec.payinValue) ++ "%",
        formulaUsed := m.po,
        ruleExplanation := "LOB=" ++ determine_lob rec.segment ++ ", Segment=" ++
          m.segment ++ ", Rule=" ++ m.remarks }
    | none =>
      { segment := rec.segment, policyType := rec.policy_type,
        location := rec.location, payin := fmt2 rec.payinValue ++ "%",
        remark := rec.remark,
        calculatedPayout := fmt2 rec.payinValue ++ "%",
        formulaUsed := "No matching rule",
        ruleExplanation := "No rule for LOB=" ++ determine_lob rec.segment ++
          ", Segment=" ++ upperStr rec.segment ++ ", Payin=" ++ rec.payinCategory }

/-! ## The batch loop with per-record error isolation -/

/-- A record of `policy_data` as handed to `apply_formula`.  `payinValue`
is the record's `Payin_Value` entry; `none` models a non-numeric value
there, on which the f-string `f"{payin_val:.2f}"` raises and the record's
`try` body fails.  `payin` is the record's original raw `payin` field (used
by the error row). -/
structure PolicyData where
  segment : String
  policy_type : String
  location : String
  payin : String
  remark : String
  payinValue : Option ℚ
  payinCategory : String
deriving DecidableEq

/-- View of a well-formed `PolicyData` as a `ClassifiedRecord`. -/
def toClassified (r : PolicyData) (pv : ℚ) : ClassifiedRecord :=
  { segment := r.segment, policy_type := r.policy_type, location := r.location,
    payinValue := pv, payinCategory := r.payinCategory, remark := r.remark }

/-- One iteration of the `apply_formula` loop including the
`except` handler (lines 363–374): a failing record is replaced by an
`"Error"` row carrying the original fields and the error message. -/
def processOne (r : PolicyData) : OutRow :=
  match r.payinValue with
  | some pv => applyRecord (toClassified r pv)
  | none =>
    { segment := r.segment, policyType := r.policy_type,
      location := r.location, payin := r.payin, remark := r.remark,
      calculatedPayout := "Error", formulaUsed := "Error",
      ruleExplanation := "Error: unsupported format string passed to payin value" }

/-- `apply_formula` itself: every record of the batch is processed
independently (an empty batch yields `[]`). -/
def apply_formula (l : List PolicyData) : List OutRow := l.map processOne

/-- A row is an `"Error"` placeholder row. -/
def isErrorRow (row : OutRow) : Bool := row.formulaUsed == "Error"

/-- The four bucket labels `classify_payin` can produce: every record the
pipeline hands to `apply_formula` has its `Payin_Category` among these. -/
def fourLabels : List String :=
  ["Payin Below 20%", "Payin 21% to 30%", "Payin 31% to 50%", "Payin Above 50%"]

/-! ## Definitions written from the specification's words

These are compared with the source embedding above in the refinement
claims; they are deliberately phrased the way the specification phrases
them (priority table, candidate filtering, bucket labelling). -/

/-- The priority table of §4.2: class name and keyword set, in the fixed
priority order of the specification. -/
def LOB_TABLE : List (String × List String) :=
  [("BUS", ["BUS"]),
   ("TW", ["TW", "2W", "MC", "SC", "1+5"]),
   ("PVT CAR", ["PVT CAR", "CAR", "PCI"]),
   ("CV", ["CV", "GVW", "PCV", "GCV"]),
   ("TAXI", ["TAXI"]),
   ("MISD", ["MISD", "TRACTOR"])]

/-- First class in priority order with a keyword occurring in the
(already uppercased) segment; `UNKNOWN` when none hits. -/
def firstLob : List (String × List String) → String → String
  | [], _ => "UNKNOWN"
  | (name, kws) :: rest, s =>
    if kws.any (fun k => subStr k.data s.data) then name else firstLob rest s

/-- The line-of-business resolver as the specification describes it. -/
def lobSpec (s : String) : String := firstLob LOB_TABLE (upperStr s)

/-- The bucket label of a parsed pay-in value, thresholds inclusive at the
upper bound, as §4.1 describes it. -/
def bucketLabel (v : ℚ) : String :=
  if v ≤ 20 then "Payin Below 20%"
  else if v ≤ 30 then "Payin 21% to 30%"
  else if v ≤ 50 then "Payin 31% to 50%"
  else "Payin Above 50%"

/-- The pay-in classifier as the specification describes it: clean the
string, parse, pair the value with its bucket label; parse failure gives
`(0.0, "Payin Below 20%")`. -/
def classifySpec (x : PayinInput) : ℚ × String :=
  match x with
  | .num v => (v, bucketLabel v)
  | .str s =>
    match parseDec (stripPayin s) with
    | some v => (v, bucketLabel v)
    | none => ((0 : ℚ), "Payin Below 20%")

/-- Step 1 of §4.3 (amended by C1's counterexample: the pattern is
uppercased before the containment test, matching the source): the
candidate rules, filtered from the table. -/
def specCandidates (rec : ClassifiedRecord) : List Rule :=
  FORMULA_DATA.filter (candPred (determine_lob rec.segment) (upperStr rec.segment))

/-- Steps 1–3 of §4.3 as the (amended) claim describes them: filter the
candidates, then a specific-match pass in table order, then the `NIL`
fallback pass. -/
def specSelectAmended (rec : ClassifiedRecord) : Option Rule :=
  match (specCandidates rec).find? (fun r => r.remarks != "NIL" &&
      (subStr r.remarks.data rec.payinCategory.data ||
        subStr r.remarks.data rec.remark.data)) with
  | some m => some m
  | none => (specCandidates rec).find? (fun r => r.remarks == "NIL")

/-- Step 1 of §4.3 exactly as claim C1 words it: the raw (not uppercased)
`segment_pattern` must be a substring of the uppercased record segment. -/
def specCandidatesLiteral (rec : ClassifiedRecord) : List Rule :=
  FORMULA_DATA.filter (fun r =>
    r.lob == determine_lob rec.segment && subStr r.segment.data (upperStr rec.segment).data)

/-- The selection of claim C1 taken literally (candidates per
`specCandidatesLiteral`). -/
def specSelectLiteral (rec : ClassifiedRecord) : Option Rule :=
  match (specCandidatesLiteral rec).find? (fun r => r.remarks != "NIL" &&
      (subStr r.remarks.data rec.payinCategory.data ||
        subStr r.remarks.data rec.remark.data)) with
  | some m => some m
  | none => (specCandidatesLiteral rec).find? (fun r => r.remarks == "NIL")

/-! ## Concrete records used in witnesses and counterexamples -/

/-- A two-wheeler comprehensive record with symbolic pay-in and bucket. -/
def twSaodRec (p : ℚ) (cat : String) : ClassifiedRecord :=
  ⟨"TW SAOD + COMP", "Comp", "", p, cat, ""⟩

/-- A commercial-vehicle record with pay-in 25 (bucket `21% to 30%`). -/
def cvRec25 : ClassifiedRecord :=
  ⟨"All GVW & PCV 3W, GCV 3W", "TP", "", 25, "Payin 21% to 30%", ""⟩

/-- A miscellaneous record whose segment matches the table row
`"Misd, Tractor"` only after uppercasing the pattern. -/
def misdRec : ClassifiedRecord :=
  ⟨"Misd, Tractor", "TP", "X", 10, "Payin Below 20%", ""⟩

/-- A record with negative numeric pay-in and a segment matching no rule. -/
def negPayinRec : ClassifiedRecord :=
  ⟨"SPACESHIP", "TP", "X", -5, "Payin Below 20%", ""⟩

/-- A taxi record in the lowest bucket. -/
def taxiRec : ClassifiedRecord :=
  ⟨"TAXI", "TP", "X", 10, "Payin Below 20%", "standard"⟩

/-- Zuno-override remarks of the three spellings the claim lists. -/
def zunoRec1 : ClassifiedRecord :=
  ⟨"PVT CAR TP", "TP", "X", 55, "Payin Above 50%", "Zuno-21"⟩

/-- Record with an en-dash Zuno remark. -/
def zunoRec2 : ClassifiedRecord :=
  ⟨"TW TP", "TP", "X", 30, "Payin 21% to 30%", "note Zuno – 21 applies"⟩

/-- Record with a lowercase Zuno remark. -/
def zunoRec3 : ClassifiedRecord :=
  ⟨"TAXI", "Comp", "X", 12, "Payin Below 20%", "zuno - 21"⟩

/-- A private-car TP record that is not short-circuited. -/
def pvtRec : ClassifiedRecord := ⟨"PVT CAR TP", "TP", "X", 18, "Payin Below 20%", "clean"⟩

/-- Well-formed batch records and a malformed one for the batch claim. -/
def goodRecA : PolicyData := ⟨"TAXI", "TP", "L", "12%", "ok", some 12, "Payin Below 20%"⟩

/-- Second well-formed batch record. -/
def goodRecB : PolicyData := ⟨"TW TP", "TP", "L", "25%", "ok", some 25, "Payin 21% to 30%"⟩

/-- A malformed batch record: its `Payin_Value` is not a number. -/
def badRec : PolicyData := ⟨"TAXI", "TP", "L", "abc", "bad", none, "Payin Below 20%"⟩

/-! ## Helper lemmas -/

theorem pymax_eq (a b : ℚ) : pymax a b = max a b := by
  unfold pymax
  split
  · exact (max_eq_right (by assumption)).symm
  · exact (max_eq_left (le_of_not_le (by assumption))).symm

theorem computePO_nonneg (po : String) (p : ℚ) : 0 ≤ computePO po p := by
  unfold computePO
  simp only [pymax_eq]
  exact le_max_left 0 _

theorem find_congrOn {α : Type} (l : List α) (p q : α → Bool)
    (h : ∀ x ∈ l, p x = q x) : l.find? p = l.find? q := by
  induction l with
  | nil => rfl
  | cons a t ih =>
    rw [List.find?_cons, List.find?_cons, h a (List.mem_cons_self a t)]
    cases hqa : q a
    · exact ih (fun x hx => h x (List.mem_cons_of_mem a hx))
    · rfl

theorem find_filter_and {α : Type} (l : List α) (p q : α → Bool) :
    (l.filter p).find? q = l.find? (fun x => p x && q x) := by
  induction l with
  | nil => rfl
  | cons a t ih =>
    cases hp : p a
    · simp [List.filter_cons, hp, List.find?_cons, ih]
    · cases hq : q a
      · simp [List.filter_cons, hp, hq, List.find?_cons, ih]
      · simp [List.filter_cons, hp, hq, List.find?_cons]

theorem strip_remarks : ∀ r ∈ FORMULA_DATA, stripStr r.remarks = r.remarks := by decide

theorem cat_dir : ∀ c ∈ fourLabels, ∀ r ∈ FORMULA_DATA,
    subStr c.data r.remarks.data = subStr r.remarks.data c.data := by decide

theorem cat_not_in_zuno : ∀ c ∈ fourLabels, subStr c.data "Zuno - 21".data = false := by
  decide

theorem headMatches_decomp : ∀ (n h : List Char), headMatches n h = true →
    ∃ t, h = n ++ t := by
  intro n
  induction n with
  | nil => intro h _; exact ⟨h, rfl⟩
  | cons a as ih =>
    intro h hm
    cases h with
    | nil => simp [headMatches] at hm
    | cons b bs =>
      simp only [headMatches, Bool.and_eq_true, beq_iff_eq] at hm
      obtain ⟨t, ht⟩ := ih bs hm.2
      exact ⟨t, by simp [hm.1, ht]⟩

theorem subStr_decomp : ∀ (h n : List Char), subStr n h = true →
    ∃ pre t, h = pre ++ n ++ t := by
  intro h
  induction h with
  | nil =>
    intro n hs
    simp only [subStr, List.isEmpty_iff] at hs
    exact ⟨[], [], by simp [hs]⟩
  | cons c t ih =>
    intro n hs
    simp only [subStr, Bool.or_eq_true] at hs
    cases hs with
    | inl hm =>
      obtain ⟨tl, htl⟩ := headMatches_decomp n (c :: t) hm
      exact ⟨[], tl, by simp [htl]⟩
    | inr hsub =>
      obtain ⟨pre, tl, h2⟩ := ih n hsub
      exact ⟨c :: pre, tl, by simp [h2]⟩

theorem zunoAt_lit (t : List Char) :
    zunoAt ('Z' :: 'u' :: 'n' :: 'o' :: ' ' :: '-' :: ' ' :: '2' :: '1' :: t) = true := rfl

theorem zunoAt_imp_search : ∀ l, zunoAt l = true → zunoSearch l = true := by
  intro l h
  cases l with
  | nil => exact absurd h (by decide)
  | cons c t => simp [zunoSearch, h]

theorem zunoSearch_append_right : ∀ (pre l : List Char),
    zunoSearch l = true → zunoSearch (pre ++ l) = true := by
  intro pre
  induction pre with
  | nil => intro l h; simpa using h
  | cons c t ih => intro l h; simp [zunoSearch, ih l h]

theorem zuno_contained (remark : List Char)
    (h : subStr "Zuno - 21".data remark = true) : zunoSearch remark = true := by
  obtain ⟨pre, t, ht⟩ := subStr_decomp remark "Zuno - 21".data h
  subst ht
  rw [List.append_assoc]
  apply zunoSearch_append_right
  exact zunoAt_imp_search _ (zunoAt_lit t)

theorem selectRule_mem {lob segUp cat remark : String} {m : Rule}
    (h : selectRule lob segUp cat remark = some m) : m ∈ FORMULA_DATA := by
  unfold selectRule at h
  cases h1 : pass1 lob segUp cat remark with
  | some x =>
    rw [h1] at h
    cases h
    exact List.mem_of_find?_eq_some h1
  | none =>
    rw [h1] at h
    exact List.mem_of_find?_eq_some h

theorem applyRecord_not_error (rec : ClassifiedRecord) :
    isErrorRow (applyRecord rec) = false := by
  unfold applyRecord isErrorRow
  split
  · show (("Zuno - 21 (from remark)" : String) == "Error") = false
    decide
  · cases hsel : selectRuleOf rec with
    | some m =>
      simp only [hsel]
      show (m.po == "Error") = false
      have hm : m ∈ FORMULA_DATA := selectRule_mem hsel
      have hall : ∀ r ∈ FORMULA_DATA, (r.po == "Error") = false := by decide
      exact hall m hm
    | none =>
      simp only [hsel]
      show (("No matching rule" : String) == "Error") = false
      decide

theorem classifyVal_eq (v : ℚ) : classifyVal v = (v, bucketLabel v) := by
  unfold classifyVal bucketLabel
  split_ifs <;> rfl

theorem parseDecL_nonneg : ∀ l q, parseDecL l = some q → 0 ≤ q := by
  intro l q h
  unfold parseDecL at h
  split at h
  · split at h
    · cases h
      positivity
    · exact Option.noConfusion h
  · split at h
    · cases h
      positivity
    · exact Option.noConfusion h
  · exact Option.noConfusion h

theorem parseDec_nonneg (s : String) (q : ℚ) (h : parseDec s = some q) : 0 ≤ q :=
  parseDecL_nonneg _ q h

/-! ## The claims -/

/-- Claim C1, counterexample to the claim as stated.  The claim's candidate
condition ("segment_pattern is a substring of the uppercased record
segment") omits the uppercasing of the pattern that the code performs
(`rule["SEGMENT"].upper() not in seg_up`).  For the record with segment
`"Misd, Tractor"` the engine selects the MISD table row, while the claim's
literal selection finds no candidate at all. -/
theorem claim1_counterexample :
    selectRuleOf misdRec = some ⟨"MISD", "Misd, Tractor", "88% of Payin", "NIL"⟩ ∧
    specSelectLiteral misdRec = none := by
  constructor
  · rfl
  · rfl

/-- Claim C1 (amended: the segment pattern is uppercased before the
substring test).  For every record whose pay-in category is one of the four
classifier labels — every record the pipeline produces — the engine's
two-pass selection over `FORMULA_DATA` equals the claim's description:
candidates are the rules with equal line-of-business whose uppercased
segment pattern occurs in the uppercased record segment; the first pass
takes the first candidate in table order whose remark bucket is not `NIL`
and relates to the pay-in category or occurs in the record remark (on the
four labels the containment test is direction-insensitive, so the claim's
direction and the code's agree); the second pass takes the first `NIL`
candidate. -/
theorem claim1_rule_selection (rec : ClassifiedRecord)
    (hcat : rec.payinCategory ∈ fourLabels) :
    selectRuleOf rec = specSelectAmended rec := by
  unfold selectRuleOf specSelectAmended specCandidates selectRule pass1 pass2
  rw [find_filter_and, find_filter_and]
  have h1 : FORMULA_DATA.find? (fun r =>
      candPred (determine_lob rec.segment) (upperStr rec.segment) r &&
        (stripStr r.remarks != "NIL" &&
          (subStr rec.payinCategory.data (stripStr r.remarks).data ||
            subStr (stripStr r.remarks).data rec.remark.data))) =
      FORMULA_DATA.find? (fun r =>
        candPred (determine_lob rec.segment) (upperStr rec.segment) r &&
          (r.remarks != "NIL" &&
            (subStr r.remarks.data rec.payinCategory.data ||
              subStr r.remarks.data rec.remark.data))) := by
    apply find_congrOn
    intro r hr
    simp only [strip_remarks r hr, cat_dir rec.payinCategory hcat r hr]
  have h2 : FORMULA_DATA.find? (fun r =>
      candPred (determine_lob rec.segment) (upperStr rec.segment) r &&
        (stripStr r.remarks == "NIL")) =
      FORMULA_DATA.find? (fun r =>
        candPred (determine_lob rec.segment) (upperStr rec.segment) r &&
          (r.remarks == "NIL")) := by
    apply find_congrOn
    intro r hr
    simp only [strip_remarks r hr]
  rw [h1, h2]

/-- Claim C1, witness: the amended selection equivalence evaluated on a
concrete taxi record. -/
theorem claim1_witness :
    taxiRec.payinCategory ∈ fourLabels ∧ selectRuleOf taxiRec = specSelectAmended taxiRec :=
  ⟨by decide, claim1_rule_selection taxiRec (by decide)⟩

/-- Claim C2: whenever the record's remark matches the case-insensitive
pattern `Zuno[-–—]21` (optional surrounding whitespace), the engine
short-circuits — payout exactly `21.0` (printed `21.00%`), the fixed
override label, and no rule lookup — for every segment, line of business
and pay-in value. -/
theorem claim2_zuno_override (rec : ClassifiedRecord)
    (h : zunoSearch rec.remark.data = true) :
    payoutOf rec = 21 ∧ (applyRecord rec).calculatedPayout = "21.00%" ∧
    (applyRecord rec).formulaUsed = "Zuno - 21 (from remark)" ∧
    matchedRuleOf rec = none := by
  unfold payoutOf applyRecord matchedRuleOf
  rw [h]
  refine ⟨rfl, ?_, rfl, rfl⟩
  simp only [if_true]
  show fmt2 21 ++ "%" = "21.00%"
  have hf : ⌊(21 : ℚ) * 100 + 1 / 2⌋ = (2100 : ℤ) := by
    rw [Int.floor_eq_iff]
    norm_num
  unfold fmt2
  rw [hf]
  decide

/-- Claim C2, witness: remarks containing `"Zuno-21"`, `"Zuno – 21"` and
`"zuno - 21"` all trigger the override and yield payout 21, at three
concrete records with different segments, buckets and pay-ins. -/
theorem claim2_witness :
    (zunoSearch zunoRec1.remark.data = true ∧ payoutOf zunoRec1 = 21) ∧
    (zunoSearch zunoRec2.remark.data = true ∧ payoutOf zunoRec2 = 21) ∧
    (zunoSearch zunoRec3.remark.data = true ∧ payoutOf zunoRec3 = 21) :=
  ⟨⟨by decide, (claim2_zuno_override zunoRec1 (by decide)).1⟩,
   ⟨by decide, (claim2_zuno_override zunoRec2 (by decide)).1⟩,
   ⟨by decide, (claim2_zuno_override zunoRec3 (by decide)).1⟩⟩

/-- Claim C3: the payout formulas.  `"21"` is the fixed 21; the two
percentage formulas scale the pay-in; `-2%`/`Less 2%`/`-3%`/`-4%`/`-5%`
subtract flat points; all are clamped at 0.  In particular a TW
`"TW SAOD + COMP"` record with any non-negative pay-in `p` and any bucket
pays `0.9 × p` (printed rounded to two decimals), and the CV record with
pay-in 25 (bucket `21% to 30%`) pays `25 − 3 = 22`. -/
theorem claim3_formula_semantics (p : ℚ) (cat : String) (hp : 0 ≤ p) :
    computePO "21" p = 21 ∧
    computePO "90% of Payin" p = 9 / 10 * p ∧
    computePO "88% of Payin" p = 22 / 25 * p ∧
    computePO "-2%" p = max 0 (p - 2) ∧
    computePO "Less 2%" p = max 0 (p - 2) ∧
    computePO "-3%" p = max 0 (p - 3) ∧
    computePO "-4%" p = max 0 (p - 4) ∧
    computePO "-5%" p = max 0 (p - 5) ∧
    payoutOf (twSaodRec p cat) = 9 / 10 * p ∧
    payoutOf cvRec25 = 22 := by
  have h21 : computePO "21" p = pymax 0 21 := rfl
  have h90 : computePO "90% of Payin" p = pymax 0 (p * (9 / 10)) := rfl
  have h88 : computePO "88% of Payin" p = pymax 0 (p * (88 / 100)) := rfl
  have h2 : computePO "-2%" p = pymax 0 (p - 2) := rfl
  have hL2 : computePO "Less 2%" p = pymax 0 (p - 2) := rfl
  have h3 : computePO "-3%" p = pymax 0 (p - 3) := rfl
  have h4 : computePO "-4%" p = pymax 0 (p - 4) := rfl
  have h5 : computePO "-5%" p = pymax 0 (p - 5) := rfl
  have htw : payoutOf (twSaodRec p cat) = computePO "90% of Payin" p := rfl
  have hcv : payoutOf cvRec25 = computePO "-3%" 25 := rfl
  have h3cv : computePO "-3%" (25 : ℚ) = pymax 0 (25 - 3) := rfl
  refine ⟨?_, ?_, ?_, ?_, ?_, ?_, ?_, ?_, ?_, ?_⟩
  · rw [h21, pymax_eq]; norm_num
  · rw [h90, pymax_eq, max_eq_right (by positivity)]; ring
  · rw [h88, pymax_eq, max_eq_right (by positivity)]; ring
  · rw [h2, pymax_eq]
  · rw [hL2, pymax_eq]
  · rw [h3, pymax_eq]
  · rw [h4, pymax_eq]
  · rw [h5, pymax_eq]
  · rw [htw, h90, pymax_eq, max_eq_right (by positivity)]; ring
  · rw [hcv, h3cv, pymax_eq]; norm_num

/-- Claim C3, witness: the TW comprehensive record with pay-in 40 pays
`0.9 × 40 = 36`. -/
theorem claim3_witness :
    (0 : ℚ) ≤ 40 ∧ payoutOf (twSaodRec 40 "Payin 31% to 50%") = 9 / 10 * 40 :=
  ⟨by norm_num,
    (claim3_formula_semantics 40 "Payin 31% to 50%" (by norm_num)).2.2.2.2.2.2.2.2.1⟩

/-- Claim C5: a record that is not short-circuited and for which no table
row passes the candidate test gets its own pay-in value back unmodified,
the `"No matching rule"` label, and the diagnostic explanation naming the
resolved line of business, the uppercased segment and the pay-in bucket. -/
theorem claim5_no_rule_fallback (rec : ClassifiedRecord)
    (hz : zunoSearch rec.remark.data = false)
    (hno : ∀ r ∈ FORMULA_DATA,
      candPred (determine_lob rec.segment) (upperStr rec.segment) r = false) :
    payoutOf rec = rec.payinValue ∧
    (applyRecord rec).formulaUsed = "No matching rule" ∧
    (applyRecord rec).ruleExplanation = "No rule for LOB=" ++ determine_lob rec.segment ++
      ", Segment=" ++ upperStr rec.segment ++ ", Payin=" ++ rec.payinCategory := by
  have h1 : pass1 (determine_lob rec.segment) (upperStr rec.segment)
      rec.payinCategory rec.remark = none := by
    apply List.find?_eq_none.mpr
    intro x hx
    rw [hno x hx]
    simp
  have h2 : pass2 (determine_lob rec.segment) (upperStr rec.segment) = none := by
    apply List.find?_eq_none.mpr
    intro x hx
    rw [hno x hx]
    simp
  have hsel : selectRuleOf rec = none := by
    unfold selectRuleOf selectRule
    rw [h1, h2]
  unfold payoutOf applyRecord
  rw [hz, hsel]
  exact ⟨rfl, rfl, rfl⟩

/-- Claim C5, witness: the `"SPACESHIP"` record resolves to `UNKNOWN`,
matches no rule, and gets its own pay-in back with the fallback label. -/
theorem claim5_witness :
    determine_lob negPayinRec.segment = "UNKNOWN" ∧
    payoutOf negPayinRec = negPayinRec.payinValue ∧
    (applyRecord negPayinRec).formulaUsed = "No matching rule" :=
  ⟨by decide,
    (claim5_no_rule_fallback negPayinRec (by decide) (by decide)).1,
    (claim5_no_rule_fallback negPayinRec (by decide) (by decide)).2.1⟩

/-- Claim C6: `determine_lob` equals the priority-ordered keyword table of
the specification — uppercase the segment, return the first class in the
fixed order (BUS, TW, PVT CAR, CV, TAXI, MISD) one of whose keywords
occurs as a substring, else `UNKNOWN`; a segment containing several
classes' keywords therefore resolves to the earliest class. -/
theorem claim6_lob_priority (s : String) : determine_lob s = lobSpec s := by
  simp only [determine_lob, lobSpec, LOB_TABLE, firstLob, List.any_cons, List.any_nil,
    Bool.or_false]

/-- Claim C7, counterexample to the claim as stated: the record with
numeric pay-in −5 and a segment matching no rule is processed successfully
(its row is not an `"Error"` row) yet its calculated payout is −5 < 0 —
the no-matching-rule branch copies the pay-in without clamping. -/
theorem claim7_counterexample :
    payoutOf negPayinRec = -5 ∧ (-5 : ℚ) < 0 ∧
    (applyRecord negPayinRec).formulaUsed ≠ "Error" := by
  refine ⟨rfl, by norm_num, ?_⟩
  intro h
  have hne := applyRecord_not_error negPayinRec
  rw [isErrorRow, h] at hne
  exact absurd hne (by decide)

/-- Claim C7 (amended: restricted to records whose pay-in value is
non-negative, which is every record except those whose raw numeric pay-in
was negative): the calculated payout is never negative. -/
theorem claim7_payout_nonneg (rec : ClassifiedRecord) (hp : 0 ≤ rec.payinValue) :
    0 ≤ payoutOf rec := by
  unfold payoutOf
  split
  · norm_num
  · split
    · exact computePO_nonneg _ _
    · exact hp

/-- Claim C7, witness: the CV record with pay-in 25 has non-negative
payout. -/
theorem claim7_witness :
    (0 : ℚ) ≤ cvRec25.payinValue ∧ 0 ≤ payoutOf cvRec25 :=
  ⟨by show (0 : ℚ) ≤ 25; norm_num,
    claim7_payout_nonneg cvRec25 (by show (0 : ℚ) ≤ 25; norm_num)⟩

/-- Claim C4, counterexample to the claim as stated: the classifier's
bucket labels carry a `"Payin "` prefix — on a malformed string it returns
`(0.0, "Payin Below 20%")`, not `(0.0, "Below 20%")` as the claim's quoted
labels say. -/
theorem claim4_counterexample :
    classify_payin (.str "oops") = ((0 : ℚ), "Payin Below 20%") ∧
    classify_payin (.str "oops") ≠ ((0 : ℚ), "Below 20%") := by
  constructor
  · rfl
  · intro h
    have h2 := congrArg Prod.snd h
    exact absurd h2 (by decide)

/-- Claim C4 (amended: the four bucket labels are `"Payin Below 20%"`,
`"Payin 21% to 30%"`, `"Payin 31% to 50%"`, `"Payin Above 50%"`): the
classifier strips `%`, spaces and minus signs, parses the remainder as a
float, buckets with inclusive upper bounds (20.00 and 30.00 fall low,
20.01 and 50.01 fall high), and on any parse failure returns
`(0.0, "Payin Below 20%")`; being a total function it never throws. -/
theorem claim4_classifier :
    (∀ x : PayinInput, classify_payin x = classifySpec x) ∧
    classify_payin (.num 20) = (20, "Payin Below 20%") ∧
    classify_payin (.num (2001 / 100)) = (2001 / 100, "Payin 21% to 30%") ∧
    classify_payin (.num 30) = (30, "Payin 21% to 30%") ∧
    classify_payin (.num 50) = (50, "Payin 31% to 50%") ∧
    classify_payin (.num (5001 / 100)) = (5001 / 100, "Payin Above 50%") ∧
    classify_payin (.str "abc") = (0, "Payin Below 20%") ∧
    classify_payin (.str "45 %") = (45, "Payin 31% to 50%") := by
  refine ⟨?_, ?_, ?_, ?_, ?_, ?_, rfl, ?_⟩
  · intro x
    cases x with
    | num v => exact classifyVal_eq v
    | str s =>
      unfold classify_payin classifySpec
      cases h : parseDec (stripPayin s) with
      | some v => simp only [h]; exact classifyVal_eq v
      | none => simp only [h]
  · show classifyVal 20 = (20, "Payin Below 20%")
    unfold classifyVal
    norm_num
  · show classifyVal (2001 / 100) = (2001 / 100, "Payin 21% to 30%")
    unfold classifyVal
    norm_num
  · show classifyVal 30 = (30, "Payin 21% to 30%")
    unfold classifyVal
    norm_num
  · show classifyVal 50 = (50, "Payin 31% to 50%")
    unfold classifyVal
    norm_num
  · show classifyVal (5001 / 100) = (5001 / 100, "Payin Above 50%")
    unfold classifyVal
    norm_num
  · have hp : parseDec (stripPayin "45 %") = some ((45 : ℕ) : ℚ) := rfl
    show (match parseDec (stripPayin "45 %") with
      | some v => classifyVal v
      | none => ((0 : ℚ), "Payin Below 20%")) = (45, "Payin 31% to 50%")
    rw [hp]
    unfold classifyVal
    norm_num

/-- Claim C8, counterexample to the claim as stated: a numeric pay-in is
passed through `classify_payin` unchanged, with no clamp — the numeric
input −5 produces `payin_value = −5 < 0`. -/
theorem claim8_counterexample :
    (classify_payin (.num (-5))).1 = -5 ∧ (-5 : ℚ) < 0 := by
  constructor
  · show (classifyVal (-5)).1 = -5
    rw [classifyVal_eq]
  · norm_num

/-- Claim C8 (amended: only string pay-in inputs are guaranteed a
non-negative `payin_value` — the clean-up removes every minus sign before
parsing, and a parse failure defaults to 0; numeric inputs pass through
unchanged and may be negative). -/
theorem claim8_string_nonneg (s : String) : 0 ≤ (classify_payin (.str s)).1 := by
  unfold classify_payin
  cases h : parseDec (stripPayin s) with
  | some v =>
    simp only [h, classifyVal_eq]
    exact parseDec_nonneg _ v h
  | none =>
    simp only [h]
    norm_num

/-- Claim C9: `apply_formula` processes each record of a batch
independently, emitting exactly one row per record (the output length
always equals the input length); a batch of well-formed records around one
malformed record yields the full `N + 1` rows of which exactly one is an
`"Error"` row. -/
theorem claim9_batch (pre post : List PolicyData) (bad : PolicyData)
    (hok : ∀ r ∈ pre ++ post, r.payinValue.isSome = true)
    (hbad : bad.payinValue = none) :
    (∀ l : List PolicyData, (apply_formula l).length = l.length) ∧
    (apply_formula (pre ++ bad :: post)).length = pre.length + post.length + 1 ∧
    (apply_formula (pre ++ bad :: post)).countP isErrorRow = 1 := by
  have hlen : ∀ l : List PolicyData, (apply_formula l).length = l.length := by
    intro l
    unfold apply_formula
    exact List.length_map l processOne
  have hzero : ∀ L : List PolicyData, (∀ r ∈ L, r.payinValue.isSome = true) →
      List.countP isErrorRow (L.map processOne) = 0 := by
    intro L hL
    rw [List.countP_map]
    apply List.countP_eq_zero.mpr
    intro r hr
    obtain ⟨pv, hpv⟩ := Option.isSome_iff_exists.mp (hL r hr)
    show ¬ isErrorRow (processOne r) = true
    unfold processOne
    rw [hpv, applyRecord_not_error]
    simp
  have hbadrow : isErrorRow (processOne bad) = true := by
    unfold processOne
    rw [hbad]
    show (("Error" : String) == "Error") = true
    decide
  refine ⟨hlen, ?_, ?_⟩
  · rw [hlen]
    simp [List.length_append]
    omega
  · unfold apply_formula
    rw [List.map_append, List.map_cons, List.countP_append, List.countP_cons]
    rw [hzero pre (fun r hr => hok r (List.mem_append_left post hr)),
      hzero post (fun r hr => hok r (List.mem_append_right pre hr)), hbadrow]
    simp

/-- Claim C9, witness: a batch of two well-formed records around one
malformed record yields 3 rows with exactly one `"Error"` row. -/
theorem claim9_witness :
    badRec.payinValue = none ∧
    (apply_formula ([goodRecA] ++ badRec :: [goodRecB])).length = 3 ∧
    (apply_formula ([goodRecA] ++ badRec :: [goodRecB])).countP isErrorRow = 1 := by
  have h := claim9_batch [goodRecA] [goodRecB] badRec (by decide) rfl
  exact ⟨rfl, h.2.1, h.2.2⟩

/-- Claim C10: the table row at index 8 (`REMARKS = "Zuno - 21"`) is dead
data — for every record whose pay-in category is one of the four
classifier labels, the engine never processes a record with that row: a
remark containing `"Zuno - 21"` is short-circuited by the Step-0 override
before any lookup, no bucket label occurs inside `"Zuno - 21"`, and the
`NIL` fallback pass cannot return it. -/
theorem claim10_unreachable (rec : ClassifiedRecord)
    (hcat : rec.payinCategory ∈ fourLabels) :
    FORMULA_DATA[8]? = some zunoTableRow ∧ matchedRuleOf rec ≠ some zunoTableRow := by
  refine ⟨by decide, ?_⟩
  unfold matchedRuleOf
  cases hz : zunoSearch rec.remark.data with
  | true => simp
  | false =>
    simp only [Bool.false_eq_true, if_false]
    intro hsel
    unfold selectRuleOf selectRule at hsel
    cases h1 : pass1 (determine_lob rec.segment) (upperStr rec.segment)
        rec.payinCategory rec.remark with
    | some m =>
      rw [h1] at hsel
      have hm : m = zunoTableRow := by injection hsel
      subst hm
      have hp := List.find?_some h1
      simp only [Bool.and_eq_true, Bool.or_eq_true] at hp
      have hstrip : stripStr zunoTableRow.remarks = zunoTableRow.remarks := by decide
      rw [hstrip] at hp
      rcases hp.2.2 with hc | hr
      · rw [show subStr rec.payinCategory.data zunoTableRow.remarks.data =
          subStr rec.payinCategory.data "Zuno - 21".data from rfl,
          cat_not_in_zuno rec.payinCategory hcat] at hc
        exact absurd hc (by decide)
      · have hzz := zuno_contained rec.remark.data hr
        rw [hz] at hzz
        exact absurd hzz (by decide)
    | none =>
      rw [h1] at hsel
      have hp := List.find?_some hsel
      simp only [Bool.and_eq_true] at hp
      have hne : (stripStr zunoTableRow.remarks == "NIL") = false := by decide
      rw [hne] at hp
      exact absurd hp.2 (by decide)

/-- Claim C10, witness: a concrete private-car TP record in the lowest
bucket is not matched with the `"Zuno - 21"` table row. -/
theorem claim10_witness :
    pvtRec.payinCategory ∈ fourLabels ∧
    (FORMULA_DATA[8]? = some zunoTableRow ∧ matchedRuleOf pvtRec ≠ some zunoTableRow) :=
  ⟨by decide, claim10_unreachable pvtRec (by decide)⟩
